import Mathlib

/-!
Verification model of the fastapi-kafka-transposer workflow orchestration
engine.  The definitions below are a shallow embedding of the Python
sources:

* `app/services/workflow_service.py`     — job state machine / driver
* `app/services/workflow_db_service.py`  — workflow registry with cache
* `app/services/translation_response_handler.py` — response correlator
* `app/services/kafka_service.py`        — broker gateway model

Python dicts are modelled as association lists where only `lookup`,
update and removal are observed (Python key-insertion order is not
observable by any property proved here).  Broker message values are
restricted to the two shapes the engine's traffic actually carries:
strings and flat string-to-string dictionaries.  The database session is
modelled as an explicit state record; `session.commit()` of a mutated
ORM object becomes replacement of the corresponding row in the state.
-/

namespace Transposer

/-- A JSON-ish value carried in a broker message: a string (for example a
transcription text or a source id) or a flat dictionary (for example the
per-language translations object). -/
inductive Value where
  | vstr (s : String)
  | vdict (entries : List (String × String))
deriving DecidableEq, Repr

/-- Python truthiness of a message value: the empty string and the empty
dict are falsy (`if not source_id: return` drops them). -/
def Value.falsy : Value → Bool
  | .vstr s => s == ""
  | .vdict l => l.isEmpty

/-- A broker message: a flat key-value document. -/
abbrev Msg := List (String × Value)

/-- Python dict assignment `d[k] = v`: at most one binding per key. -/
def dictSet (l : List (String × α)) (k : String) (v : α) :
    List (String × α) :=
  (k, v) :: l.filter (fun p => p.1 != k)

/-- Python dict removal `d.pop(k, None)` (the binding for `k`, if any,
disappears). -/
def dictRemove (l : List (String × α)) (k : String) :
    List (String × α) :=
  l.filter (fun p => p.1 != k)

/-- Job status enumeration from `app/database/models.py`. -/
inductive JobStatus where
  | in_progress
  | done
  | error
deriving DecidableEq, Repr

/-- One workflow step as the service consumes it: `{"topic": ...,
"response_topic": ...}`. -/
structure Step where
  topic : String
  response_topic : String
deriving DecidableEq, Repr

/-- The workflow configuration dict built by
`WorkflowDatabaseService.get_workflow_config`. -/
structure WorkflowConfig where
  steps : List Step
deriving DecidableEq, Repr

/-- A `WorkflowStep` database row. -/
structure StepRow where
  step_order : Nat
  topic : String
  response_topic : String
deriving DecidableEq, Repr

/-- A `WorkflowConfiguration` database row together with its step rows. -/
structure WorkflowRow where
  name : String
  is_active : Bool
  steps : List StepRow
deriving DecidableEq, Repr

/-- A `TranscriptionAndTranslationJob` row (the fields the engine reads or
writes; `workflow_step` is stored as a decimal string in the database and
every access converts it with `int`/`str`, so it is carried as a `Nat`). -/
structure TJob where
  source_id : String
  source_type : String
  url : String
  language : Option String
  source_status : JobStatus
  workflow_step : Nat
  transcription : Option Value
  translations : Option Value
deriving DecidableEq, Repr

/-- A `TranslationJob` row. -/
structure TrJob where
  source_id : String
  source_language : String
  target_language_ids : List String
  input_text : String
  translations : Option Value
  status : JobStatus
  workflow_step : Nat
deriving DecidableEq, Repr

/-- A record of one `kafka_service.send_message` call. -/
structure PublishRecord where
  topic : String
  key : Option String
  message : Msg
deriving DecidableEq, Repr

/-- The world the engine mutates: the two job tables, the workflow
registry's database rows and in-memory cache, the log of published
messages, and the correlator's waiter table (`pending_requests` maps a
source id to an index into `futures`; a future is `none` while pending
and `some payload` once resolved). -/
structure SysState where
  tjobs : List TJob
  trjobs : List TrJob
  workflow_cache : List (String × WorkflowConfig)
  workflow_db : List WorkflowRow
  published : List PublishRecord
  pending_requests : List (String × Nat)
  futures : List (Option Msg)
deriving DecidableEq, Repr

/-- Stable insertion of a step row into a list sorted by `step_order`
(used to mirror Python's stable `sorted(..., key=lambda s: s.step_order)`). -/
def insertByOrder (s : StepRow) : List StepRow → List StepRow
  | [] => [s]
  | t :: ts =>
    if s.step_order < t.step_order then s :: t :: ts
    else t :: insertByOrder s ts

/-- Stable sort of step rows by `step_order`. -/
def sortSteps (l : List StepRow) : List StepRow :=
  l.foldl (fun acc s => insertByOrder s acc) []

/-- Conversion of a workflow row into the config dict
`{"steps": [{"topic": ..., "response_topic": ...}, ...]}` built by
`get_workflow_config`. -/
def buildConfig (rows : List StepRow) : WorkflowConfig :=
  { steps := (sortSteps rows).map (fun s =>
      { topic := s.topic, response_topic := s.response_topic }) }

/-- `WorkflowDatabaseService.get_workflow_config`: cache-first lookup; on
miss, query the first active row with the given name, convert, cache and
return; `none` when no active row exists. -/
def get_workflow_config (st : SysState) (workflow_name : String) :
    Option WorkflowConfig × SysState :=
  match st.workflow_cache.lookup workflow_name with
  | some cfg => (some cfg, st)
  | none =>
    match st.workflow_db.find?
        (fun w => w.name == workflow_name && w.is_active) with
    | none => (none, st)
    | some w =>
      let cfg := buildConfig w.steps
      (some cfg,
       { st with workflow_cache := dictSet st.workflow_cache workflow_name cfg })

/-- `TranslationResponseHandler.register_request`: create a fresh pending
future, record it in `pending_requests` (overwriting any previous waiter
for the same id — last registration wins), and return its handle. -/
def register_request (st : SysState) (source_id : String) :
    SysState × Nat :=
  let idx := st.futures.length
  ({ st with
      futures := st.futures ++ [none],
      pending_requests := dictSet st.pending_requests source_id idx },
   idx)

/-- `TranslationResponseHandler.handle_response`: pop the waiter for the
id; if one exists and its future is still pending, resolve the future
with the payload; with no waiter (or an already-done future) nothing else
happens. -/
def handle_response (st : SysState) (source_id : String)
    (response_data : Msg) : SysState :=
  match st.pending_requests.lookup source_id with
  | none => st
  | some i =>
    let st1 := { st with
      pending_requests := dictRemove st.pending_requests source_id }
    match st1.futures.get? i with
    | some none => { st1 with futures := st1.futures.set i (some response_data) }
    | _ => st1

/-- Replace the first element of a list satisfying `p` by `x` (the image
of mutating the ORM object a query returned and committing). -/
def replaceFirst (l : List α) (p : α → Bool) (x : α) : List α :=
  match l with
  | [] => []
  | a :: as => if p a then x :: as else a :: replaceFirst as p x

/-- The `source_id` correlation predicate of the job queries in
`process_response` (`where(T.source_id == source_id)`). -/
def sidMatchT (v : Value) (j : TJob) : Bool :=
  decide (v = Value.vstr j.source_id)

/-- The `source_id` correlation predicate for translation jobs. -/
def sidMatchTr (v : Value) (j : TrJob) : Bool :=
  decide (v = Value.vstr j.source_id)

/-- First transcription job matching the message's source id. -/
def findTJob (l : List TJob) (v : Value) : Option TJob :=
  l.find? (sidMatchT v)

/-- First translation job matching the message's source id. -/
def findTrJob (l : List TrJob) (v : Value) : Option TrJob :=
  l.find? (sidMatchTr v)

/-- `data.get("source_id")` followed by the `if not source_id: return`
truthiness guard. -/
def getSid (data : Msg) : Option Value :=
  match data.lookup "source_id" with
  | none => none
  | some v => if v.falsy then none else some v

/-- `WorkflowService._send_to_step`: look up the step; out of range is
logged and dropped; otherwise publish a thin message carrying only the
source id, keyed by the source id. -/
def send_to_step (st : SysState) (job : TJob) (step_index : Nat)
    (workflow : WorkflowConfig) : SysState :=
  match workflow.steps.get? step_index with
  | none => st
  | some step =>
    { st with published := st.published ++
        [{ topic := step.topic,
           key := some job.source_id,
           message := [("source_id", Value.vstr job.source_id)] }] }

/-- `WorkflowService.start_job`: resolve the job's workflow by
`source_type`; on failure set the job's status to ERROR and commit;
otherwise dispatch to step 0 (the job row itself is not changed). -/
def start_job (st : SysState) (job : TJob) : SysState :=
  match get_workflow_config st job.source_type with
  | (none, st1) =>
    let failed := { job with source_status := JobStatus.error }
    { st1 with tjobs := (replaceFirst st1.tjobs
        (fun j => j.source_id == job.source_id) failed) }
  | (some workflow, st1) => send_to_step st1 job 0 workflow

/-- `WorkflowService._update_job_with_response`: copy the recognized
fields (`output` into `transcription`, `translations` into
`translations`) out of the message when present; everything else in the
message is ignored. -/
def update_job_with_response (job : TJob) (data : Msg) : TJob :=
  let job1 :=
    match data.lookup "output" with
    | some v => { job with transcription := some v }
    | none => job
  match data.lookup "translations" with
  | some v => { job1 with translations := some v }
  | none => job1

/-- `WorkflowService._advance_workflow`: re-resolve the workflow (ERROR
on failure); if `workflow_step + 1` runs past the step list the job is
DONE; otherwise bump the cursor, commit, and dispatch to the next step.
The status of the job is never consulted. -/
def advance_workflow (st : SysState) (job : TJob) : SysState :=
  match get_workflow_config st job.source_type with
  | (none, st1) =>
    let failed := { job with source_status := JobStatus.error }
    { st1 with tjobs := (replaceFirst st1.tjobs
        (fun j => j.source_id == job.source_id) failed) }
  | (some workflow, st1) =>
    let current_step := job.workflow_step
    let next_step := current_step + 1
    if next_step ≥ workflow.steps.length then
      let finished := { job with source_status := JobStatus.done }
      { st1 with tjobs := (replaceFirst st1.tjobs
          (fun j => j.source_id == job.source_id) finished) }
    else
      let job' := { job with workflow_step := next_step }
      let st2 := { st1 with tjobs := (replaceFirst st1.tjobs
          (fun j => j.source_id == job.source_id) job') }
      send_to_step st2 job' next_step workflow

/-- `WorkflowService.process_response`: drop messages without a truthy
source id; a matching translation job is completed directly (store the
translations, set DONE, resolve the waiter) when the message carries a
`translations` field and otherwise left alone; a matching transcription
job is merged with the response, committed, and advanced; an unknown id
is logged and dropped. -/
def process_response (st : SysState) (_topic : String) (data : Msg) :
    SysState :=
  match getSid data with
  | none => st
  | some sidv =>
    match findTrJob st.trjobs sidv with
    | some translation_job =>
      match data.lookup "translations" with
      | some tv =>
        let finished := { translation_job with
            translations := some tv, status := JobStatus.done }
        let st1 := { st with trjobs := (replaceFirst st.trjobs
            (sidMatchTr sidv) finished) }
        handle_response st1 translation_job.source_id
          [("source_id", Value.vstr translation_job.source_id),
           ("translations", tv),
           ("status", Value.vstr "completed")]
      | none => st
    | none =>
      match findTJob st.tjobs sidv with
      | none => st
      | some job =>
        let job' := update_job_with_response job data
        let st1 := { st with tjobs := (replaceFirst st.tjobs
            (sidMatchT sidv) job') }
        advance_workflow st1 job'

/-- Sequential delivery of a list of responses to `process_response`. -/
def process_responses (st : SysState) (topic : String) (datas : List Msg) :
    SysState :=
  datas.foldl (fun s d => process_response s topic d) st

/-!
Broker gateway model (`app/services/kafka_service.py`).  Registered
handlers, consumers and consumer tasks are each a dict keyed by topic;
handler, consumer and task objects are opaque and represented by natural
number identities.  `next_id` supplies fresh identities for the consumer
and task a `start_consumer` call creates.
-/

/-- The mutable fields of `KafkaService` that registration observes. -/
structure KafkaState where
  handlers : List (String × Nat)
  consumers : List (String × Nat)
  consumer_tasks : List (String × Nat)
  next_id : Nat
deriving DecidableEq, Repr

/-- `KafkaService.register_consumer`: `self.handlers[topic] = handler` —
a plain dict assignment, silently overwriting any previous handler. -/
def register_consumer (st : KafkaState) (topic : String) (handler : Nat) :
    KafkaState :=
  { st with handlers := dictSet st.handlers topic handler }

/-- `KafkaService.start_consumer`: when a consumer for the topic already
exists, log a warning and return unchanged; otherwise create a consumer
and its consumption task. -/
def start_consumer (st : KafkaState) (topic : String) : KafkaState :=
  if (st.consumers.lookup topic).isSome then st
  else
    { st with
        consumers := dictSet st.consumers topic st.next_id,
        consumer_tasks := dictSet st.consumer_tasks topic (st.next_id + 1),
        next_id := st.next_id + 2 }

/-!
Consumer loop model (`KafkaService._consume_messages`).  One poll either
returns nothing, a broker-level error object, or a raw payload; a raw
payload either decodes to a message or raises a decode error
(`json.loads`); the registered handler either succeeds or raises.  The
loop body wraps decode-plus-handle in a try block whose except clauses
catch the decode error and every other exception, so each iteration ends
in a logged outcome and the loop moves on.
-/

/-- An exception the loop body can raise. -/
inductive PyError where
  | jsonDecodeError
  | other (msg : String)
deriving DecidableEq, Repr

/-- The undecoded payload of one delivered record. -/
inductive RawValue where
  | malformed
  | wellFormed (m : Msg)
deriving DecidableEq, Repr

/-- One result of `consumer.poll`. -/
inductive PollResult where
  | timeoutNone
  | brokerError (partition_eof : Bool)
  | payload (raw : RawValue)
deriving DecidableEq, Repr

/-- The logged outcome of one loop iteration. -/
inductive StepResult where
  | polledNone
  | brokerErrorLogged
  | decodeFailed
  | handlerRaised
  | handled
deriving DecidableEq, Repr

/-- `json.loads(msg.value().decode(...))`: succeed or raise the decode
error. -/
def decodeRaw : RawValue → Except PyError Msg
  | .malformed => Except.error PyError.jsonDecodeError
  | .wellFormed m => Except.ok m

/-- The try block of the loop body: decode, then invoke the handler. -/
def tryBody (handler : Msg → Except PyError Unit) (raw : RawValue) :
    Except PyError StepResult := do
  let v ← decodeRaw raw
  let _ ← handler v
  pure StepResult.handled

/-- One iteration of `_consume_messages` for one poll result: `None`
polls and broker error records are skipped; exceptions escaping the try
block are caught by the except clauses and logged.  Every branch
produces an outcome and the loop continues. -/
def consume_step (handler : Msg → Except PyError Unit) :
    PollResult → StepResult
  | .timeoutNone => StepResult.polledNone
  | .brokerError _ => StepResult.brokerErrorLogged
  | .payload raw =>
    match tryBody handler raw with
    | .ok r => r
    | .error PyError.jsonDecodeError => StepResult.decodeFailed
    | .error (.other _) => StepResult.handlerRaised

/-- The consumer loop over a finite trace of poll results (the polls
delivered before `_running` is cleared): every delivered record is
processed by one iteration. -/
def consume_loop (handler : Msg → Except PyError Unit)
    (polls : List PollResult) : List StepResult :=
  polls.map (consume_step handler)

/-!
Concrete fixtures used by the witness and counterexample theorems below.
-/

/-- A two-step workflow, the spec's end-to-end example shape. -/
def wfTwoStep : WorkflowConfig :=
  { steps := [{ topic := "T1", response_topic := "R1" },
              { topic := "T2", response_topic := "R2" }] }

/-- A three-step workflow for the duplicate-delivery scenario. -/
def wfThreeStep : WorkflowConfig :=
  { steps := [{ topic := "T1", response_topic := "R1" },
              { topic := "T2", response_topic := "R2" },
              { topic := "T3", response_topic := "R3" }] }

/-- A fresh transcription job at step 0. -/
def jobGeneral : TJob :=
  { source_id := "j1", source_type := "general", url := "u",
    language := none, source_status := JobStatus.in_progress,
    workflow_step := 0, transcription := none, translations := none }

/-- A state holding `jobGeneral` with the two-step workflow cached. -/
def stTwoStep : SysState :=
  { tjobs := [jobGeneral], trjobs := [],
    workflow_cache := [("general", wfTwoStep)], workflow_db := [],
    published := [], pending_requests := [], futures := [] }

/-- A state holding `jobGeneral` with the three-step workflow cached. -/
def stThreeStep : SysState :=
  { tjobs := [jobGeneral], trjobs := [],
    workflow_cache := [("general", wfThreeStep)], workflow_db := [],
    published := [], pending_requests := [], futures := [] }

/-- A step-zero response carrying a transcription output. -/
def respOutput : Msg :=
  [("source_id", Value.vstr "j1"), ("output", Value.vstr "hello")]

/-- A final-step response carrying translations. -/
def respTranslations : Msg :=
  [("source_id", Value.vstr "j1"),
   ("translations", Value.vdict [("es", "hola")])]

/-- The job after completing the two-step workflow: DONE at the final
step index. -/
def jobAtLastStep : TJob :=
  { jobGeneral with
      workflow_step := 1,
      source_status := JobStatus.done,
      transcription := some (Value.vstr "hello") }

/-- A state holding `jobAtLastStep` with the two-step workflow cached. -/
def stAtLastStep : SysState :=
  { tjobs := [jobAtLastStep], trjobs := [],
    workflow_cache := [("general", wfTwoStep)], workflow_db := [],
    published := [], pending_requests := [], futures := [] }

/-- A state whose database holds an active workflow with zero steps. -/
def stZeroStepDb : SysState :=
  { tjobs := [], trjobs := [], workflow_cache := [],
    workflow_db := [{ name := "empty", is_active := true, steps := [] }],
    published := [], pending_requests := [], futures := [] }

/-- A state with `jobGeneral` but no workflow registered anywhere. -/
def stNoWorkflow : SysState :=
  { tjobs := [jobGeneral], trjobs := [], workflow_cache := [],
    workflow_db := [], published := [], pending_requests := [],
    futures := [] }

/-- The empty engine state. -/
def stEmpty : SysState :=
  { tjobs := [], trjobs := [], workflow_cache := [], workflow_db := [],
    published := [], pending_requests := [], futures := [] }

/-- A translation-only job. -/
def trJobEx : TrJob :=
  { source_id := "tr1", source_language := "en",
    target_language_ids := ["es"], input_text := "hi",
    translations := none, status := JobStatus.in_progress,
    workflow_step := 0 }

/-- A state holding a translation job with a registered waiter for it,
and a workflow registry the translation path must never consult. -/
def stTranslation : SysState :=
  { tjobs := [], trjobs := [trJobEx],
    workflow_cache := [("general", wfTwoStep)], workflow_db := [],
    published := [], pending_requests := [("tr1", 0)], futures := [none] }

/-- A response correlated to the translation job. -/
def respTrDone : Msg :=
  [("source_id", Value.vstr "tr1"),
   ("translations", Value.vdict [("es", "hola")])]

/-- A Kafka gateway state with one registered and started topic. -/
def kafkaStarted : KafkaState :=
  { handlers := [("R1", 1)], consumers := [("R1", 10)],
    consumer_tasks := [("R1", 11)], next_id := 12 }

/-!
Helper lemmas about the dictionary and list primitives.
-/

theorem lookup_dictSet_self (l : List (String × α)) (k : String) (v : α) :
    (dictSet l k v).lookup k = some v := by
  simp [dictSet, List.lookup]

theorem lookup_dictRemove_self (l : List (String × α)) (k : String) :
    (dictRemove l k).lookup k = none := by
  induction l with
  | nil => rfl
  | cons a as ih =>
    by_cases h : a.1 = k
    · simpa [dictRemove, h] using ih
    · have hk : (k == a.1) = false := beq_eq_false_iff_ne.mpr (Ne.symm h)
      have hstep : dictRemove (a :: as) k = a :: dictRemove as k := by
        simp [dictRemove, List.filter_cons, h]
      rw [hstep]
      simpa [List.lookup, hk] using ih

theorem find?_replaceFirst (l : List α) (p : α → Bool) (x a : α)
    (h : l.find? p = some a) (hx : p x = true) :
    (replaceFirst l p x).find? p = some x := by
  induction l with
  | nil => simp [List.find?] at h
  | cons b bs ih =>
    by_cases hb : p b = true
    · simp [replaceFirst, hb, List.find?_cons_of_pos, hx]
    · rw [List.find?_cons_of_neg _ (by simp [hb])] at h
      simp only [replaceFirst, hb, if_false, Bool.false_eq_true]
      rw [List.find?_cons_of_neg _ (by simp [hb])]
      exact ih h

theorem getq_append_length (l : List α) (x : α) :
    (l ++ [x]).get? l.length = some x := by
  induction l with
  | nil => rfl
  | cons b bs ih => simp

theorem getq_set_self (l : List α) (i : Nat) (x : α) (h : i < l.length) :
    (l.set i x).get? i = some x := by
  induction l generalizing i with
  | nil => simp at h
  | cons b bs ih =>
    cases i with
    | zero => rfl
    | succ n => simpa using ih n (by simpa using h)

/-!
Field-level description of `update_job_with_response`.
-/

theorem update_job_source_id (job : TJob) (data : Msg) :
    (update_job_with_response job data).source_id = job.source_id := by
  unfold update_job_with_response
  cases data.lookup "output" <;> cases data.lookup "translations" <;> rfl

theorem update_job_source_type (job : TJob) (data : Msg) :
    (update_job_with_response job data).source_type = job.source_type := by
  unfold update_job_with_response
  cases data.lookup "output" <;> cases data.lookup "translations" <;> rfl

theorem update_job_workflow_step (job : TJob) (data : Msg) :
    (update_job_with_response job data).workflow_step = job.workflow_step := by
  unfold update_job_with_response
  cases data.lookup "output" <;> cases data.lookup "translations" <;> rfl

theorem update_job_source_status (job : TJob) (data : Msg) :
    (update_job_with_response job data).source_status = job.source_status := by
  unfold update_job_with_response
  cases data.lookup "output" <;> cases data.lookup "translations" <;> rfl

theorem update_job_url (job : TJob) (data : Msg) :
    (update_job_with_response job data).url = job.url := by
  unfold update_job_with_response
  cases data.lookup "output" <;> cases data.lookup "translations" <;> rfl

theorem update_job_language (job : TJob) (data : Msg) :
    (update_job_with_response job data).language = job.language := by
  unfold update_job_with_response
  cases data.lookup "output" <;> cases data.lookup "translations" <;> rfl

theorem update_job_transcription (job : TJob) (data : Msg) :
    (update_job_with_response job data).transcription =
      (match data.lookup "output" with
       | some v => some v
       | none => job.transcription) := by
  unfold update_job_with_response
  cases data.lookup "output" <;> cases data.lookup "translations" <;> rfl

theorem update_job_translations (job : TJob) (data : Msg) :
    (update_job_with_response job data).translations =
      (match data.lookup "translations" with
       | some v => some v
       | none => job.translations) := by
  unfold update_job_with_response
  cases data.lookup "output" <;> cases data.lookup "translations" <;> rfl

/-!
Correlation predicate lemmas.
-/

theorem sidMatchT_vstr (sid : String) :
    sidMatchT (Value.vstr sid) = fun j => j.source_id == sid := by
  funext j
  by_cases h : j.source_id = sid
  · simp [sidMatchT, h]
  · have h1 : decide (Value.vstr sid = Value.vstr j.source_id) = false := by
      apply decide_eq_false
      intro hc
      exact h (Eq.symm (Value.vstr.inj hc))
    have h2 : (j.source_id == sid) = false := beq_eq_false_iff_ne.mpr h
    simp [sidMatchT, h2]
    exact fun hc => h (Eq.symm hc)

theorem sidMatchTr_vstr (sid : String) :
    sidMatchTr (Value.vstr sid) = fun j => j.source_id == sid := by
  funext j
  by_cases h : j.source_id = sid
  · simp [sidMatchTr, h]
  · have h1 : decide (Value.vstr sid = Value.vstr j.source_id) = false := by
      apply decide_eq_false
      intro hc
      exact h (Eq.symm (Value.vstr.inj hc))
    have h2 : (j.source_id == sid) = false := beq_eq_false_iff_ne.mpr h
    simp [sidMatchTr, h2]
    exact fun hc => h (Eq.symm hc)

theorem getSid_eq (data : Msg) (s : String)
    (h : data.lookup "source_id" = some (Value.vstr s)) (hs : s ≠ "") :
    getSid data = some (Value.vstr s) := by
  simp [getSid, h, Value.falsy, hs]

/-!
Branch reduction lemmas for the driver functions.
-/

theorem get_workflow_config_hit (st : SysState) (name : String)
    (wf : WorkflowConfig) (h : st.workflow_cache.lookup name = some wf) :
    get_workflow_config st name = (some wf, st) := by
  unfold get_workflow_config
  rw [h]

theorem send_to_step_tjobs (st : SysState) (job : TJob) (i : Nat)
    (wf : WorkflowConfig) : (send_to_step st job i wf).tjobs = st.tjobs := by
  unfold send_to_step
  cases wf.steps.get? i <;> rfl

theorem send_to_step_trjobs (st : SysState) (job : TJob) (i : Nat)
    (wf : WorkflowConfig) : (send_to_step st job i wf).trjobs = st.trjobs := by
  unfold send_to_step
  cases wf.steps.get? i <;> rfl

theorem send_to_step_cache (st : SysState) (job : TJob) (i : Nat)
    (wf : WorkflowConfig) :
    (send_to_step st job i wf).workflow_cache = st.workflow_cache := by
  unfold send_to_step
  cases wf.steps.get? i <;> rfl

theorem send_to_step_db (st : SysState) (job : TJob) (i : Nat)
    (wf : WorkflowConfig) :
    (send_to_step st job i wf).workflow_db = st.workflow_db := by
  unfold send_to_step
  cases wf.steps.get? i <;> rfl

theorem send_to_step_pending (st : SysState) (job : TJob) (i : Nat)
    (wf : WorkflowConfig) :
    (send_to_step st job i wf).pending_requests = st.pending_requests := by
  unfold send_to_step
  cases wf.steps.get? i <;> rfl

theorem send_to_step_futures (st : SysState) (job : TJob) (i : Nat)
    (wf : WorkflowConfig) :
    (send_to_step st job i wf).futures = st.futures := by
  unfold send_to_step
  cases wf.steps.get? i <;> rfl

theorem advance_workflow_done (st : SysState) (wf : WorkflowConfig)
    (job : TJob)
    (hcache : st.workflow_cache.lookup job.source_type = some wf)
    (hge : wf.steps.length ≤ job.workflow_step + 1) :
    advance_workflow st job =
      { st with tjobs := (replaceFirst st.tjobs
          (fun j => j.source_id == job.source_id)
          { job with source_status := JobStatus.done }) } := by
  unfold advance_workflow
  simp only [get_workflow_config_hit st job.source_type wf hcache]
  rw [if_pos hge]

theorem advance_workflow_next (st : SysState) (wf : WorkflowConfig)
    (job : TJob)
    (hcache : st.workflow_cache.lookup job.source_type = some wf)
    (hlt : job.workflow_step + 1 < wf.steps.length) :
    advance_workflow st job =
      send_to_step
        { st with tjobs := (replaceFirst st.tjobs
            (fun j => j.source_id == job.source_id)
            { job with workflow_step := job.workflow_step + 1 }) }
        { job with workflow_step := job.workflow_step + 1 }
        (job.workflow_step + 1) wf := by
  unfold advance_workflow
  simp only [get_workflow_config_hit st job.source_type wf hcache]
  rw [if_neg (not_le.mpr hlt)]

theorem process_response_tjob (st : SysState) (t : String) (data : Msg)
    (job : TJob)
    (hsid : data.lookup "source_id" = some (Value.vstr job.source_id))
    (hne : job.source_id ≠ "")
    (htr : findTrJob st.trjobs (Value.vstr job.source_id) = none)
    (hfind : findTJob st.tjobs (Value.vstr job.source_id) = some job) :
    process_response st t data =
      advance_workflow
        { st with tjobs := (replaceFirst st.tjobs
            (sidMatchT (Value.vstr job.source_id))
            (update_job_with_response job data)) }
        (update_job_with_response job data) := by
  unfold process_response
  rw [getSid_eq data job.source_id hsid hne]
  simp only [htr, hfind]

theorem process_response_completes (st : SysState) (wf : WorkflowConfig)
    (job : TJob) (t : String) (data : Msg)
    (hcache : st.workflow_cache.lookup job.source_type = some wf)
    (hfind : findTJob st.tjobs (Value.vstr job.source_id) = some job)
    (htr : findTrJob st.trjobs (Value.vstr job.source_id) = none)
    (hsid : data.lookup "source_id" = some (Value.vstr job.source_id))
    (hne : job.source_id ≠ "")
    (hge : wf.steps.length ≤ job.workflow_step + 1) :
    (process_response st t data).workflow_cache = st.workflow_cache ∧
    (process_response st t data).trjobs = st.trjobs ∧
    (process_response st t data).workflow_db = st.workflow_db ∧
    (process_response st t data).pending_requests = st.pending_requests ∧
    (process_response st t data).futures = st.futures ∧
    (process_response st t data).published = st.published ∧
    findTJob (process_response st t data).tjobs (Value.vstr job.source_id) =
      some { update_job_with_response job data with
              source_status := JobStatus.done } := by
  rw [process_response_tjob st t data job hsid hne htr hfind]
  rw [advance_workflow_done _ wf _
    (by simpa [update_job_source_type] using hcache)
    (by simpa [update_job_workflow_step] using hge)]
  refine ⟨rfl, rfl, rfl, rfl, rfl, rfl, ?_⟩
  simp only [findTJob, sidMatchT_vstr, update_job_source_id] at hfind ⊢
  have hP : ((update_job_with_response job data).source_id == job.source_id)
      = true := by
    rw [update_job_source_id]
    exact beq_self_eq_true job.source_id
  have hfirst := find?_replaceFirst st.tjobs
    (fun j => j.source_id == job.source_id)
    (update_job_with_response job data) job hfind hP
  exact find?_replaceFirst _ _ _ _ hfirst (by simp [hP])

theorem process_response_advances (st : SysState) (wf : WorkflowConfig)
    (job : TJob) (t : String) (data : Msg)
    (hcache : st.workflow_cache.lookup job.source_type = some wf)
    (hfind : findTJob st.tjobs (Value.vstr job.source_id) = some job)
    (htr : findTrJob st.trjobs (Value.vstr job.source_id) = none)
    (hsid : data.lookup "source_id" = some (Value.vstr job.source_id))
    (hne : job.source_id ≠ "")
    (hlt : job.workflow_step + 1 < wf.steps.length) :
    (process_response st t data).workflow_cache = st.workflow_cache ∧
    (process_response st t data).trjobs = st.trjobs ∧
    (process_response st t data).workflow_db = st.workflow_db ∧
    (process_response st t data).pending_requests = st.pending_requests ∧
    (process_response st t data).futures = st.futures ∧
    findTJob (process_response st t data).tjobs (Value.vstr job.source_id) =
      some { update_job_with_response job data with
              workflow_step := job.workflow_step + 1 } := by
  rw [process_response_tjob st t data job hsid hne htr hfind]
  rw [advance_workflow_next _ wf _
    (by simpa [update_job_source_type] using hcache)
    (by simpa [update_job_workflow_step] using hlt)]
  refine ⟨by rw [send_to_step_cache], by rw [send_to_step_trjobs],
    by rw [send_to_step_db], by rw [send_to_step_pending],
    by rw [send_to_step_futures], ?_⟩
  rw [show (update_job_with_response job data).workflow_step + 1
      = job.workflow_step + 1 from by rw [update_job_workflow_step]]
  rw [send_to_step_tjobs]
  simp only [findTJob, sidMatchT_vstr, update_job_source_id] at hfind ⊢
  have hP : ((update_job_with_response job data).source_id == job.source_id)
      = true := by
    rw [update_job_source_id]
    exact beq_self_eq_true job.source_id
  have hfirst := find?_replaceFirst st.tjobs
    (fun j => j.source_id == job.source_id)
    (update_job_with_response job data) job hfind hP
  exact find?_replaceFirst _ _ _ _ hfirst (by simp [hP])

theorem process_responses_drive (wf : WorkflowConfig) (t : String) :
    ∀ (datas : List Msg) (st : SysState) (job : TJob),
    st.workflow_cache.lookup job.source_type = some wf →
    findTJob st.tjobs (Value.vstr job.source_id) = some job →
    findTrJob st.trjobs (Value.vstr job.source_id) = none →
    (∀ d ∈ datas, d.lookup "source_id" = some (Value.vstr job.source_id)) →
    job.source_id ≠ "" →
    job.workflow_step + datas.length = wf.steps.length →
    datas ≠ [] →
    ∃ job', findTJob (process_responses st t datas).tjobs
        (Value.vstr job.source_id) = some job' ∧
      job'.source_status = JobStatus.done ∧
      job'.source_id = job.source_id ∧
      job'.workflow_step = wf.steps.length - 1 := by
  intro datas
  induction datas with
  | nil =>
    intro st job _ _ _ _ _ _ hcon
    exact absurd rfl hcon
  | cons d ds ih =>
    intro st job hcache hfind htr hdatas hne hlen _
    by_cases hds : ds = []
    · subst hds
      have hlen1 : job.workflow_step + 1 = wf.steps.length := by
        simpa using hlen
      have hge : wf.steps.length ≤ job.workflow_step + 1 := by omega
      obtain ⟨_, _, _, _, _, _, hfind'⟩ :=
        process_response_completes st wf job t d hcache hfind htr
          (hdatas d (by simp)) hne hge
      have hPR : process_responses st t [d] = process_response st t d := rfl
      rw [hPR]
      refine ⟨_, hfind', rfl, by simp [update_job_source_id], ?_⟩
      have hw : job.workflow_step = wf.steps.length - 1 := by omega
      simpa [update_job_workflow_step] using hw
    · have hdspos : 1 ≤ ds.length := by
        cases ds with
        | nil => exact absurd rfl hds
        | cons a as => simp
      have hlen1 : job.workflow_step + (ds.length + 1) = wf.steps.length := by
        simpa using hlen
      have hlt : job.workflow_step + 1 < wf.steps.length := by omega
      obtain ⟨hc, htrj, _, _, _, hfind'⟩ :=
        process_response_advances st wf job t d hcache hfind htr
          (hdatas d (by simp)) hne hlt
      have hsrc : ({ update_job_with_response job d with
          workflow_step := job.workflow_step + 1 } : TJob).source_id
          = job.source_id := by simp [update_job_source_id]
      have hst : ({ update_job_with_response job d with
          workflow_step := job.workflow_step + 1 } : TJob).source_type
          = job.source_type := by simp [update_job_source_type]
      obtain ⟨job', hj1, hj2, hj3, hj4⟩ :=
        ih (process_response st t d)
          { update_job_with_response job d with
            workflow_step := job.workflow_step + 1 }
          (by rw [hc, hst]; exact hcache)
          (by rw [hsrc]; exact hfind')
          (by rw [htrj, hsrc]; exact htr)
          (by intro d' hd'; rw [hsrc]; exact hdatas d' (by simp [hd']))
          (by rw [hsrc]; exact hne)
          (by simpa using by omega)
          hds
      have hPR : process_responses st t (d :: ds)
          = process_responses (process_response st t d) t ds := rfl
      rw [hPR, ← hsrc]
      exact ⟨job', hj1, hj2, by rw [hj3, hsrc], hj4⟩

/-- C1: for every workflow with N steps (N at least 1) and every job
governed by it that starts at step 0 with status IN_PROGRESS, delivering
N well-formed responses (each carrying the job's source id) in sequence
through `process_response` leaves the job DONE with `workflow_step`
equal to N - 1. -/
theorem job_done_after_n_responses (st : SysState) (wf : WorkflowConfig)
    (job : TJob) (t : String) (datas : List Msg)
    (hcache : st.workflow_cache.lookup job.source_type = some wf)
    (hfind : findTJob st.tjobs (Value.vstr job.source_id) = some job)
    (htr : findTrJob st.trjobs (Value.vstr job.source_id) = none)
    (hdatas : ∀ d ∈ datas,
      d.lookup "source_id" = some (Value.vstr job.source_id))
    (hne : job.source_id ≠ "")
    (hstep0 : job.workflow_step = 0)
    (_hstat : job.source_status = JobStatus.in_progress)
    (hN : datas.length = wf.steps.length)
    (hpos : 1 ≤ wf.steps.length) :
    ∃ job', findTJob (process_responses st t datas).tjobs
        (Value.vstr job.source_id) = some job' ∧
      job'.source_status = JobStatus.done ∧
      job'.workflow_step = wf.steps.length - 1 := by
  have hnil : datas ≠ [] := by
    intro h
    rw [h] at hN
    simp at hN
    omega
  obtain ⟨job', h1, h2, _, h4⟩ :=
    process_responses_drive wf t datas st job hcache hfind htr hdatas hne
      (by rw [hstep0]; simpa using hN) hnil
  exact ⟨job', h1, h2, h4⟩

/-- Witness for C1 at the two-step workflow fixture. -/
theorem job_done_after_n_responses_witness :
    ∃ job', findTJob
        (process_responses stTwoStep "R" [respOutput, respTranslations]).tjobs
        (Value.vstr "j1") = some job' ∧
      job'.source_status = JobStatus.done ∧
      job'.workflow_step = 1 :=
  job_done_after_n_responses stTwoStep wfTwoStep jobGeneral "R"
    [respOutput, respTranslations]
    (by decide) (by decide) (by decide) (by decide) (by decide)
    (by decide) (by decide) (by decide) (by decide)

/-- C2 counterexample: with a three-step workflow and a job that has
already advanced past step 0 (cursor at 1), a second delivery of the
same step-0 response advances the cursor again (1 to 2) and publishes to
a later step's dispatch topic — the claimed duplicate idempotence fails
mid-workflow. -/
theorem duplicate_delivery_advances_cursor :
    ((findTJob (process_response stThreeStep "R1" respOutput).tjobs
        (Value.vstr "j1")).map (fun j => j.workflow_step) = some 1) ∧
    ((findTJob (process_response (process_response stThreeStep "R1"
        respOutput) "R1" respOutput).tjobs
        (Value.vstr "j1")).map (fun j => j.workflow_step) = some 2) ∧
    (process_response stThreeStep "R1" respOutput).published.length = 1 ∧
    (process_response (process_response stThreeStep "R1" respOutput)
        "R1" respOutput).published.length = 2 := by
  decide

/-- C2 amended: the advance path is a no-op on the cursor only once the
job's next step index runs past the workflow's step list: a duplicate
delivered then leaves `workflow_step` unchanged, re-sets status DONE,
and publishes nothing.  Mid-workflow, a duplicate advances the cursor
and publishes again (the advance path never checks the job's status). -/
theorem advance_at_last_step_is_noop (st : SysState) (wf : WorkflowConfig)
    (job : TJob) (t : String) (data : Msg)
    (hcache : st.workflow_cache.lookup job.source_type = some wf)
    (hfind : findTJob st.tjobs (Value.vstr job.source_id) = some job)
    (htr : findTrJob st.trjobs (Value.vstr job.source_id) = none)
    (hsid : data.lookup "source_id" = some (Value.vstr job.source_id))
    (hne : job.source_id ≠ "")
    (hge : wf.steps.length ≤ job.workflow_step + 1) :
    (process_response st t data).published = st.published ∧
    findTJob (process_response st t data).tjobs (Value.vstr job.source_id)
      = some { update_job_with_response job data with
                source_status := JobStatus.done } ∧
    ({ update_job_with_response job data with
        source_status := JobStatus.done } : TJob).workflow_step
      = job.workflow_step := by
  obtain ⟨_, _, _, _, _, hpub, hfind'⟩ :=
    process_response_completes st wf job t data hcache hfind htr hsid hne hge
  exact ⟨hpub, hfind', by simp [update_job_workflow_step]⟩

/-- Witness for the amended C2 at a DONE job sitting at the final step. -/
theorem advance_at_last_step_is_noop_witness :
    (process_response stAtLastStep "R2" respTranslations).published
      = stAtLastStep.published ∧
    findTJob (process_response stAtLastStep "R2" respTranslations).tjobs
        (Value.vstr "j1")
      = some { update_job_with_response jobAtLastStep respTranslations with
                source_status := JobStatus.done } ∧
    ({ update_job_with_response jobAtLastStep respTranslations with
        source_status := JobStatus.done } : TJob).workflow_step
      = jobAtLastStep.workflow_step :=
  advance_at_last_step_is_noop stAtLastStep wfTwoStep jobAtLastStep
    "R2" respTranslations
    (by decide) (by decide) (by decide) (by decide) (by decide) (by decide)

/-- C3: a job whose `source_type` resolves to no workflow (neither cached
nor an active database row) is set to ERROR and persisted by
`start_job`, and nothing is published. -/
theorem start_job_unknown_workflow (st : SysState) (job : TJob)
    (hcache : st.workflow_cache.lookup job.source_type = none)
    (hdb : st.workflow_db.find?
        (fun w => w.name == job.source_type && w.is_active) = none)
    (hfind : findTJob st.tjobs (Value.vstr job.source_id) = some job) :
    (start_job st job).published = st.published ∧
    findTJob (start_job st job).tjobs (Value.vstr job.source_id)
      = some { job with source_status := JobStatus.error } ∧
    (start_job st job).trjobs = st.trjobs ∧
    (start_job st job).pending_requests = st.pending_requests ∧
    (start_job st job).futures = st.futures := by
  have hred : start_job st job =
      { st with tjobs := (replaceFirst st.tjobs
          (fun j => j.source_id == job.source_id)
          { job with source_status := JobStatus.error }) } := by
    unfold start_job get_workflow_config
    simp only [hcache, hdb]
  rw [hred]
  refine ⟨rfl, ?_, rfl, rfl, rfl⟩
  simp only [findTJob, sidMatchT_vstr] at hfind ⊢
  exact find?_replaceFirst _ _ _ _ hfind (by simp)

/-- Witness for C3 with a job whose workflow name is nowhere defined. -/
theorem start_job_unknown_workflow_witness :
    (start_job stNoWorkflow jobGeneral).published = stNoWorkflow.published ∧
    findTJob (start_job stNoWorkflow jobGeneral).tjobs (Value.vstr "j1")
      = some { jobGeneral with source_status := JobStatus.error } ∧
    (start_job stNoWorkflow jobGeneral).trjobs = stNoWorkflow.trjobs ∧
    (start_job stNoWorkflow jobGeneral).pending_requests
      = stNoWorkflow.pending_requests ∧
    (start_job stNoWorkflow jobGeneral).futures = stNoWorkflow.futures :=
  start_job_unknown_workflow stNoWorkflow jobGeneral
    (by decide) (by decide) (by decide)

/-- C4: a response without a truthy source id, or whose source id
matches no stored job of either kind, leaves the state untouched (the
embedding is a total function, so no exception is possible). -/
theorem uncorrelated_response_is_dropped (st : SysState) (t : String)
    (data : Msg)
    (h : ∀ sidv, getSid data = some sidv →
      findTrJob st.trjobs sidv = none ∧ findTJob st.tjobs sidv = none) :
    process_response st t data = st := by
  unfold process_response
  cases hg : getSid data with
  | none => rfl
  | some sidv =>
    obtain ⟨h1, h2⟩ := h sidv hg
    simp only [h1, h2]

/-- Witness for C4: a well-formed response against an empty store. -/
theorem uncorrelated_response_is_dropped_witness :
    process_response stEmpty "R1" respOutput = stEmpty := by
  apply uncorrelated_response_is_dropped
  intro sidv hg
  have hg' : some (Value.vstr "j1") = some sidv := hg
  cases hg'
  exact ⟨rfl, rfl⟩

/-- C5: the response merge copies exactly the recognized fields present
in the message into the job's payload columns, leaves every column the
message does not mention unchanged (nothing is overwritten wholesale),
leaves all non-payload fields unchanged, and ignores unrecognized
message fields entirely (the result depends only on the two recognized
lookups). -/
theorem response_merge_keywise (job : TJob) (data : Msg) :
    (update_job_with_response job data).transcription =
      (match data.lookup "output" with
       | some v => some v
       | none => job.transcription) ∧
    (update_job_with_response job data).translations =
      (match data.lookup "translations" with
       | some v => some v
       | none => job.translations) ∧
    (update_job_with_response job data).source_id = job.source_id ∧
    (update_job_with_response job data).source_type = job.source_type ∧
    (update_job_with_response job data).workflow_step = job.workflow_step ∧
    (update_job_with_response job data).source_status = job.source_status ∧
    (update_job_with_response job data).url = job.url ∧
    (update_job_with_response job data).language = job.language ∧
    (∀ data' : Msg, data'.lookup "output" = data.lookup "output" →
      data'.lookup "translations" = data.lookup "translations" →
      update_job_with_response job data' = update_job_with_response job data) := by
  refine ⟨update_job_transcription job data, update_job_translations job data,
    update_job_source_id job data, update_job_source_type job data,
    update_job_workflow_step job data, update_job_source_status job data,
    update_job_url job data, update_job_language job data, ?_⟩
  intro data' h1 h2
  unfold update_job_with_response
  rw [h1, h2]

/-- Witness for C5: the step-0 response merges the transcription, keeps
the cursor, and an extra unrecognized field changes nothing. -/
theorem response_merge_keywise_witness :
    (update_job_with_response jobGeneral respOutput).transcription
      = some (Value.vstr "hello") ∧
    (update_job_with_response jobGeneral respOutput).workflow_step = 0 ∧
    update_job_with_response jobGeneral
        [("source_id", Value.vstr "j1"), ("output", Value.vstr "hello"),
         ("junk", Value.vstr "zzz")]
      = update_job_with_response jobGeneral respOutput := by
  obtain ⟨h1, -, -, -, h5, -, -, -, h9⟩ :=
    response_merge_keywise jobGeneral respOutput
  exact ⟨h1.trans (by decide), h5.trans (by decide),
    h9 [("source_id", Value.vstr "j1"), ("output", Value.vstr "hello"),
        ("junk", Value.vstr "zzz")] (by decide) (by decide)⟩

/-- C6 counterexample: an active stored workflow with zero steps is not
rejected by resolution — `get_workflow_config` returns the zero-step
definition and caches it. -/
theorem zero_step_workflow_is_returned :
    (get_workflow_config stZeroStepDb "empty").1
      = some { steps := ([] : List Step) } ∧
    (get_workflow_config stZeroStepDb "empty").2.workflow_cache.lookup
        "empty" = some { steps := ([] : List Step) } := by
  decide

/-- C6 amended: `get_workflow_config` performs no step-count validation:
on a cache miss, any active stored definition — a zero-step one included
— is converted, cached and returned. -/
theorem get_workflow_config_no_validation (st : SysState) (name : String)
    (row : WorkflowRow)
    (hmiss : st.workflow_cache.lookup name = none)
    (hdb : st.workflow_db.find?
        (fun w => w.name == name && w.is_active) = some row) :
    get_workflow_config st name =
      (some (buildConfig row.steps),
       { st with workflow_cache := (dictSet st.workflow_cache name
          (buildConfig row.steps)) }) := by
  unfold get_workflow_config
  simp only [hmiss, hdb]

/-- Witness for the amended C6 at the zero-step database fixture. -/
theorem get_workflow_config_no_validation_witness :
    get_workflow_config stZeroStepDb "empty" =
      (some (buildConfig []),
       { stZeroStepDb with workflow_cache := (dictSet
          stZeroStepDb.workflow_cache "empty" (buildConfig [])) }) :=
  get_workflow_config_no_validation stZeroStepDb "empty"
    { name := "empty", is_active := true, steps := [] }
    (by decide) (by decide)

theorem nodup_keys_dictSet (l : List (String × α)) (k : String) (v : α)
    (h : (l.map Prod.fst).Nodup) :
    ((dictSet l k v).map Prod.fst).Nodup := by
  have hsub : List.Sublist ((l.filter (fun p => p.1 != k)).map Prod.fst)
      (l.map Prod.fst) := List.Sublist.map Prod.fst (List.filter_sublist l)
  refine List.nodup_cons.mpr ⟨?_, h.sublist hsub⟩
  intro hmem
  obtain ⟨x, hx, hxe⟩ := List.mem_map.mp hmem
  have hkept := List.of_mem_filter hx
  rw [hxe] at hkept
  simp at hkept

/-- C7 counterexample: with topic R1 already registered (handler 1) and
active, a second `register_consumer` does not leave the existing handler
in place — the dict assignment overwrites it with the new handler. -/
theorem reregistration_replaces_handler :
    (register_consumer kafkaStarted "R1" 2).handlers.lookup "R1" = some 2 ∧
    ¬ (register_consumer kafkaStarted "R1" 2).handlers.lookup "R1"
        = some 1 := by
  decide

/-- C7 amended: the handler table keeps at most one handler per topic
(key uniqueness is preserved by the dict assignment), but re-registering
overwrites the previous handler (last registration wins); it is
`start_consumer` on an already-active topic that is the warning no-op,
leaving the existing consumer and its task in place. -/
theorem consumer_registration_discipline (st : KafkaState) (topic : String)
    (h1 h2 : Nat)
    (hactive : (st.consumers.lookup topic).isSome = true) :
    (start_consumer (register_consumer st topic h2) topic).consumers
      = st.consumers ∧
    (start_consumer (register_consumer st topic h2) topic).consumer_tasks
      = st.consumer_tasks ∧
    (start_consumer (register_consumer st topic h2) topic).handlers.lookup
        topic = some h2 ∧
    (register_consumer st topic h1).handlers.lookup topic = some h1 ∧
    ((st.handlers.map Prod.fst).Nodup →
      (((register_consumer st topic h2).handlers).map Prod.fst).Nodup) := by
  have hstart : start_consumer (register_consumer st topic h2) topic
      = register_consumer st topic h2 := by
    unfold start_consumer
    rw [if_pos (by simpa [register_consumer] using hactive)]
  rw [hstart]
  exact ⟨rfl, rfl, lookup_dictSet_self _ _ _, lookup_dictSet_self _ _ _,
    fun h => nodup_keys_dictSet st.handlers topic h2 h⟩

/-- Witness for the amended C7 at the started-gateway fixture. -/
theorem consumer_registration_discipline_witness :
    (start_consumer (register_consumer kafkaStarted "R1" 2) "R1").consumers
      = kafkaStarted.consumers ∧
    (start_consumer (register_consumer kafkaStarted "R1" 2)
        "R1").consumer_tasks = kafkaStarted.consumer_tasks ∧
    (start_consumer (register_consumer kafkaStarted "R1" 2)
        "R1").handlers.lookup "R1" = some 2 ∧
    (register_consumer kafkaStarted "R1" 1).handlers.lookup "R1" = some 1 ∧
    ((kafkaStarted.handlers.map Prod.fst).Nodup →
      (((register_consumer kafkaStarted "R1" 2).handlers).map
          Prod.fst).Nodup) :=
  consumer_registration_discipline kafkaStarted "R1" 1 2 (by decide)

/-- C8: registering a waiter and then resolving the same id completes
the registered future with exactly the payload passed to the resolver
and removes the waiter entry; resolving an id with no registered waiter
changes nothing. -/
theorem waiter_resolution_delivers_payload (st : SysState) (sid : String)
    (p : Msg) :
    ((handle_response (register_request st sid).1 sid p).futures.get?
        (register_request st sid).2 = some (some p) ∧
     (handle_response (register_request st sid).1 sid
        p).pending_requests.lookup sid = none) ∧
    (∀ st' : SysState, ∀ sid' : String, ∀ p' : Msg,
      st'.pending_requests.lookup sid' = none →
      handle_response st' sid' p' = st') := by
  have hred : handle_response (register_request st sid).1 sid p
      = { st with
          futures := ((st.futures ++ [none]).set st.futures.length (some p)),
          pending_requests := (dictRemove
            (dictSet st.pending_requests sid st.futures.length) sid) } := by
    unfold handle_response register_request
    simp only [lookup_dictSet_self, getq_append_length]
  constructor
  · constructor
    · have hidx : (register_request st sid).2 = st.futures.length := rfl
      rw [hidx, hred]
      exact getq_set_self _ _ _ (by simp)
    · rw [hred]
      exact lookup_dictRemove_self _ _
  · intro st' sid' p' hnone
    unfold handle_response
    rw [hnone]

/-- Witness for C8: register and resolve on the empty state, plus a
resolve with no waiter. -/
theorem waiter_resolution_delivers_payload_witness :
    ((handle_response (register_request stEmpty "a").1 "a"
        [("x", Value.vstr "1")]).futures.get?
        (register_request stEmpty "a").2
        = some (some [("x", Value.vstr "1")]) ∧
     (handle_response (register_request stEmpty "a").1 "a"
        [("x", Value.vstr "1")]).pending_requests.lookup "a" = none) ∧
    handle_response stEmpty "nobody" [] = stEmpty := by
  obtain ⟨hpair, hnoop⟩ :=
    waiter_resolution_delivers_payload stEmpty "a" [("x", Value.vstr "1")]
  exact ⟨hpair, hnoop stEmpty "nobody" [] (by decide)⟩

/-- C9: the per-message step of the consumer loop is a total function
whose every branch (empty poll, broker error, decode failure, handler
exception, success) yields a logged outcome and continues; hence the
loop processes every polled record and a poisoned record never
terminates it — the records after it are still processed. -/
theorem consumer_loop_survives_poison
    (handler : Msg → Except PyError Unit)
    (pre : List PollResult) (bad : PollResult) (post : List PollResult) :
    consume_loop handler (pre ++ bad :: post)
      = consume_loop handler pre
        ++ consume_step handler bad :: consume_loop handler post ∧
    (consume_loop handler (pre ++ bad :: post)).length
      = pre.length + 1 + post.length := by
  constructor
  · simp [consume_loop]
  · simp [consume_loop]
    omega

theorem handle_response_tjobs (st : SysState) (sid : String) (r : Msg) :
    (handle_response st sid r).tjobs = st.tjobs := by
  cases h : st.pending_requests.lookup sid with
  | none => simp [handle_response, h]
  | some i =>
    cases h2 : st.futures[i]? with
    | none => simp [handle_response, h, h2]
    | some f =>
      cases f with
      | none => simp [handle_response, h, h2]
      | some m => simp [handle_response, h, h2]

theorem handle_response_trjobs (st : SysState) (sid : String) (r : Msg) :
    (handle_response st sid r).trjobs = st.trjobs := by
  cases h : st.pending_requests.lookup sid with
  | none => simp [handle_response, h]
  | some i =>
    cases h2 : st.futures[i]? with
    | none => simp [handle_response, h, h2]
    | some f =>
      cases f with
      | none => simp [handle_response, h, h2]
      | some m => simp [handle_response, h, h2]

theorem handle_response_cache (st : SysState) (sid : String) (r : Msg) :
    (handle_response st sid r).workflow_cache = st.workflow_cache := by
  cases h : st.pending_requests.lookup sid with
  | none => simp [handle_response, h]
  | some i =>
    cases h2 : st.futures[i]? with
    | none => simp [handle_response, h, h2]
    | some f =>
      cases f with
      | none => simp [handle_response, h, h2]
      | some m => simp [handle_response, h, h2]

theorem handle_response_db (st : SysState) (sid : String) (r : Msg) :
    (handle_response st sid r).workflow_db = st.workflow_db := by
  cases h : st.pending_requests.lookup sid with
  | none => simp [handle_response, h]
  | some i =>
    cases h2 : st.futures[i]? with
    | none => simp [handle_response, h, h2]
    | some f =>
      cases f with
      | none => simp [handle_response, h, h2]
      | some m => simp [handle_response, h, h2]

theorem handle_response_published (st : SysState) (sid : String) (r : Msg) :
    (handle_response st sid r).published = st.published := by
  cases h : st.pending_requests.lookup sid with
  | none => simp [handle_response, h]
  | some i =>
    cases h2 : st.futures[i]? with
    | none => simp [handle_response, h, h2]
    | some f =>
      cases f with
      | none => simp [handle_response, h, h2]
      | some m => simp [handle_response, h, h2]

theorem handle_response_comm (st : SysState) (c : List (String × WorkflowConfig))
    (d : List WorkflowRow) (sid : String) (r : Msg) :
    handle_response { st with workflow_cache := c, workflow_db := d } sid r
      = { handle_response st sid r with
          workflow_cache := c, workflow_db := d } := by
  cases h : st.pending_requests.lookup sid with
  | none => simp [handle_response, h]
  | some i =>
    cases h2 : st.futures[i]? with
    | none => simp [handle_response, h, h2]
    | some f =>
      cases f with
      | none => simp [handle_response, h, h2]
      | some m => simp [handle_response, h, h2]

theorem process_response_trjob_red (st : SysState) (t : String) (data : Msg)
    (sidv : Value) (tr : TrJob) (tv : Value)
    (hsid : getSid data = some sidv)
    (htr : findTrJob st.trjobs sidv = some tr)
    (htv : data.lookup "translations" = some tv) :
    process_response st t data =
      handle_response
        { st with trjobs := (replaceFirst st.trjobs (sidMatchTr sidv)
            { tr with translations := some tv, status := JobStatus.done }) }
        tr.source_id
        [("source_id", Value.vstr tr.source_id), ("translations", tv),
         ("status", Value.vstr "completed")] := by
  unfold process_response
  rw [hsid]
  simp only [htr, htv]

/-- C10: a response matching a translation job bypasses the step state
machine: with a `translations` field it stores them, sets DONE, leaves
the step cursor alone and resolves any waiter, touching neither the
transcription table, the workflow registry, nor the publish log; without
that field it changes nothing; and in both cases the outcome is fully
independent of the workflow cache and database. -/
theorem translation_job_bypasses_steps (st : SysState) (t : String)
    (data : Msg) (sidv : Value) (tr : TrJob)
    (hsid : getSid data = some sidv)
    (htr : findTrJob st.trjobs sidv = some tr) :
    (∀ tv, data.lookup "translations" = some tv →
      (process_response st t data).tjobs = st.tjobs ∧
      (process_response st t data).workflow_cache = st.workflow_cache ∧
      (process_response st t data).workflow_db = st.workflow_db ∧
      (process_response st t data).published = st.published ∧
      findTrJob (process_response st t data).trjobs sidv
        = some { tr with
                  translations := some tv,
                  status := JobStatus.done } ∧
      ({ tr with
          translations := some tv,
          status := JobStatus.done } : TrJob).workflow_step
        = tr.workflow_step ∧
      (∀ i, st.pending_requests.lookup tr.source_id = some i →
        st.futures.get? i = some none →
        (process_response st t data).futures.get? i
          = some (some [("source_id", Value.vstr tr.source_id),
                        ("translations", tv),
                        ("status", Value.vstr "completed")]))) ∧
    (data.lookup "translations" = none → process_response st t data = st) ∧
    (∀ c d, process_response
        { st with workflow_cache := c, workflow_db := d } t data
      = { process_response st t data with
          workflow_cache := c, workflow_db := d }) := by
  refine ⟨?_, ?_, ?_⟩
  · intro tv htv
    rw [process_response_trjob_red st t data sidv tr tv hsid htr htv]
    refine ⟨handle_response_tjobs _ _ _, handle_response_cache _ _ _,
      handle_response_db _ _ _, handle_response_published _ _ _, ?_, rfl, ?_⟩
    · rw [handle_response_trjobs]
      have h0 : sidMatchTr sidv tr = true := List.find?_some htr
      have hP : sidMatchTr sidv
          { tr with translations := some tv, status := JobStatus.done }
          = true := h0
      exact find?_replaceFirst _ _ _ _ htr hP
    · intro i hp hf
      unfold handle_response
      simp only [hp, hf]
      have hlen : i < st.futures.length := by
        obtain ⟨hl, -⟩ := List.get?_eq_some.mp hf
        exact hl
      exact getq_set_self _ _ _ hlen
  · intro htv
    unfold process_response
    rw [hsid]
    simp only [htr, htv]
  · intro c d
    cases htv : data.lookup "translations" with
    | some tv =>
      have hL := process_response_trjob_red
        { st with workflow_cache := c, workflow_db := d } t data sidv tr tv
        hsid htr htv
      have hR := process_response_trjob_red st t data sidv tr tv hsid htr htv
      rw [hL, hR]
      exact handle_response_comm
        { st with trjobs := (replaceFirst st.trjobs (sidMatchTr sidv)
            { tr with translations := some tv, status := JobStatus.done }) }
        c d tr.source_id
        [("source_id", Value.vstr tr.source_id), ("translations", tv),
         ("status", Value.vstr "completed")]
    | none =>
      have hL : process_response
          { st with workflow_cache := c, workflow_db := d } t data
          = { st with workflow_cache := c, workflow_db := d } := by
        unfold process_response
        rw [hsid]
        simp only [htr, htv]
      have hR : process_response st t data = st := by
        unfold process_response
        rw [hsid]
        simp only [htr, htv]
      rw [hL, hR]

/-- Witness for C10 at the translation-job fixture with a registered
waiter. -/
theorem translation_job_bypasses_steps_witness :
    (process_response stTranslation "RT" respTrDone).tjobs
      = stTranslation.tjobs ∧
    (process_response stTranslation "RT" respTrDone).published
      = stTranslation.published ∧
    findTrJob (process_response stTranslation "RT" respTrDone).trjobs
        (Value.vstr "tr1")
      = some { trJobEx with
                translations := some (Value.vdict [("es", "hola")]),
                status := JobStatus.done } ∧
    (process_response stTranslation "RT" respTrDone).futures.get? 0
      = some (some [("source_id", Value.vstr "tr1"),
                    ("translations", Value.vdict [("es", "hola")]),
                    ("status", Value.vstr "completed")]) := by
  obtain ⟨h1, -, -⟩ := translation_job_bypasses_steps stTranslation "RT"
    respTrDone (Value.vstr "tr1") trJobEx (by decide) (by decide)
  obtain ⟨a1, -, -, a4, a5, -, a7⟩ :=
    h1 (Value.vdict [("es", "hola")]) (by decide)
  exact ⟨a1, a4, a5, a7 0 (by decide) (by decide)⟩

end Transposer
